import Mathlib

/-!
Verification of the `itl` package (iTunes Library XML import) against its
specification.  The Go source is shallowly embedded: structs become Lean
structures (Go `int` as `Int`, `string` as `String`, `bool` as `Bool`,
`time.Time` as `PTime`), the reflective field accessors become total
functions returning `Option` (where `none` models a Go panic), and the
decode entry point `ReadFromXML` becomes explicit result passing with an
error taxonomy.
-/

/-- PTime models Go `time.Time` as stored in track/library fields.  Only its
identity matters to this package (no time arithmetic occurs); the zero value
models Go's zero `time.Time`. -/
structure PTime where
  rep : Int := 0
deriving DecidableEq

/-- FieldKind models `reflect.Kind` restricted to the kinds that occur as
`Track` field types: `reflect.Int`, `reflect.String`, `reflect.Bool`, and
struct kind for `time.Time` fields (which is none of the former three). -/
inductive FieldKind where
  | kInt
  | kString
  | kBool
  | kTime
deriving DecidableEq

/-- Track is the embedding of the Go struct `Track` (all 66 fields, in source
order, from the file defining the accessor methods).  Defaults give the Go
zero value. -/
structure Track where
  TrackID : Int := 0
  Name : String := ""
  Artist : String := ""
  Composer : String := ""
  Year : Int := 0
  Genre : String := ""
  Kind : String := ""
  Size : Int := 0
  BPM : Int := 0
  TrackNumber : Int := 0
  TrackCount : Int := 0
  DiscNumber : Int := 0
  DiscCount : Int := 0
  PartOfGaplessAlbum : Bool := false
  ContentRating : String := ""
  Rating : Int := 0
  RatingComputed : Bool := false
  Disabled : Bool := false
  Album : String := ""
  AlbumArtist : String := ""
  AlbumRating : Int := 0
  AlbumRatingComputed : Bool := false
  SortName : String := ""
  SortArtist : String := ""
  SortAlbumArtist : String := ""
  SortAlbum : String := ""
  SortComposer : String := ""
  Clean : Bool := false
  Series : String := ""
  TotalTime : Int := 0
  DateModified : PTime := {}
  DateAdded : PTime := {}
  BitRate : Int := 0
  SampleRate : Int := 0
  VolumeAdjustment : Int := 0
  Comments : String := ""
  PlayCount : Int := 0
  PlayDate : Int := 0
  PlayDateUTC : PTime := {}
  Protected : Bool := false
  Purchased : Bool := false
  SkipCount : Int := 0
  SkipDate : PTime := {}
  ArtworkCount : Int := 0
  Episode : String := ""
  EpisodeOrder : Int := 0
  TVShow : Bool := false
  Season : Int := 0
  Podcast : Bool := false
  ITunesU : Bool := false
  Unplayed : Bool := false
  PersistentID : String := ""
  TrackType : String := ""
  Location : String := ""
  FileType : Int := 0
  Movie : Bool := false
  MusicVideo : Bool := false
  HD : Bool := false
  HasVideo : Bool := false
  VideoHeight : Int := 0
  VideoWidth : Int := 0
  Grouping : String := ""
  Compilation : Bool := false
  ReleaseDate : PTime := {}
  FileFolderCount : Int := 0
  LibraryFolderCount : Int := 0
deriving DecidableEq

/-- trackFieldByName embeds `reflect.TypeOf(t).FieldByName(name)` on `Track`:
it returns the declared kind of the named struct field, or `none` when no
field of that name exists. -/
def trackFieldByName (name : String) : Option FieldKind :=
  match name with
  | "TrackID" => some .kInt
  | "Name" => some .kString
  | "Artist" => some .kString
  | "Composer" => some .kString
  | "Year" => some .kInt
  | "Genre" => some .kString
  | "Kind" => some .kString
  | "Size" => some .kInt
  | "BPM" => some .kInt
  | "TrackNumber" => some .kInt
  | "TrackCount" => some .kInt
  | "DiscNumber" => some .kInt
  | "DiscCount" => some .kInt
  | "PartOfGaplessAlbum" => some .kBool
  | "ContentRating" => some .kString
  | "Rating" => some .kInt
  | "RatingComputed" => some .kBool
  | "Disabled" => some .kBool
  | "Album" => some .kString
  | "AlbumArtist" => some .kString
  | "AlbumRating" => some .kInt
  | "AlbumRatingComputed" => some .kBool
  | "SortName" => some .kString
  | "SortArtist" => some .kString
  | "SortAlbumArtist" => some .kString
  | "SortAlbum" => some .kString
  | "SortComposer" => some .kString
  | "Clean" => some .kBool
  | "Series" => some .kString
  | "TotalTime" => some .kInt
  | "DateModified" => some .kTime
  | "DateAdded" => some .kTime
  | "BitRate" => some .kInt
  | "SampleRate" => some .kInt
  | "VolumeAdjustment" => some .kInt
  | "Comments" => some .kString
  | "PlayCount" => some .kInt
  | "PlayDate" => some .kInt
  | "PlayDateUTC" => some .kTime
  | "Protected" => some .kBool
  | "Purchased" => some .kBool
  | "SkipCount" => some .kInt
  | "SkipDate" => some .kTime
  | "ArtworkCount" => some .kInt
  | "Episode" => some .kString
  | "EpisodeOrder" => some .kInt
  | "TVShow" => some .kBool
  | "Season" => some .kInt
  | "Podcast" => some .kBool
  | "ITunesU" => some .kBool
  | "Unplayed" => some .kBool
  | "PersistentID" => some .kString
  | "TrackType" => some .kString
  | "Location" => some .kString
  | "FileType" => some .kInt
  | "Movie" => some .kBool
  | "MusicVideo" => some .kBool
  | "HD" => some .kBool
  | "HasVideo" => some .kBool
  | "VideoHeight" => some .kInt
  | "VideoWidth" => some .kInt
  | "Grouping" => some .kString
  | "Compilation" => some .kBool
  | "ReleaseDate" => some .kTime
  | "FileFolderCount" => some .kInt
  | "LibraryFolderCount" => some .kInt
  | _ => none

/-- stringFieldValue embeds `reflect.ValueOf(t).FieldByName(name).String()` for
the string-typed fields of `Track`; on any other name it returns the empty
string (in the Go code that branch is never reached because the accessor has
already checked the field kind). -/
def Track.stringFieldValue (t : Track) (name : String) : String :=
  match name with
  | "Name" => t.Name
  | "Artist" => t.Artist
  | "Composer" => t.Composer
  | "Genre" => t.Genre
  | "Kind" => t.Kind
  | "ContentRating" => t.ContentRating
  | "Album" => t.Album
  | "AlbumArtist" => t.AlbumArtist
  | "SortName" => t.SortName
  | "SortArtist" => t.SortArtist
  | "SortAlbumArtist" => t.SortAlbumArtist
  | "SortAlbum" => t.SortAlbum
  | "SortComposer" => t.SortComposer
  | "Series" => t.Series
  | "Comments" => t.Comments
  | "Episode" => t.Episode
  | "PersistentID" => t.PersistentID
  | "TrackType" => t.TrackType
  | "Location" => t.Location
  | "Grouping" => t.Grouping
  | _ => ""

/-- intFieldValue embeds `reflect.ValueOf(t).FieldByName(name).Int()` for the
int-typed fields of `Track`; other names give 0 (unreached in the Go code). -/
def Track.intFieldValue (t : Track) (name : String) : Int :=
  match name with
  | "TrackID" => t.TrackID
  | "Year" => t.Year
  | "Size" => t.Size
  | "BPM" => t.BPM
  | "TrackNumber" => t.TrackNumber
  | "TrackCount" => t.TrackCount
  | "DiscNumber" => t.DiscNumber
  | "DiscCount" => t.DiscCount
  | "Rating" => t.Rating
  | "AlbumRating" => t.AlbumRating
  | "TotalTime" => t.TotalTime
  | "BitRate" => t.BitRate
  | "SampleRate" => t.SampleRate
  | "VolumeAdjustment" => t.VolumeAdjustment
  | "PlayCount" => t.PlayCount
  | "PlayDate" => t.PlayDate
  | "SkipCount" => t.SkipCount
  | "ArtworkCount" => t.ArtworkCount
  | "EpisodeOrder" => t.EpisodeOrder
  | "Season" => t.Season
  | "FileType" => t.FileType
  | "VideoHeight" => t.VideoHeight
  | "VideoWidth" => t.VideoWidth
  | "FileFolderCount" => t.FileFolderCount
  | "LibraryFolderCount" => t.LibraryFolderCount
  | _ => 0

/-- boolFieldValue embeds `reflect.ValueOf(t).FieldByName(name).Bool()` for the
bool-typed fields of `Track`; other names give `false` (unreached in Go). -/
def Track.boolFieldValue (t : Track) (name : String) : Bool :=
  match name with
  | "PartOfGaplessAlbum" => t.PartOfGaplessAlbum
  | "RatingComputed" => t.RatingComputed
  | "Disabled" => t.Disabled
  | "AlbumRatingComputed" => t.AlbumRatingComputed
  | "Clean" => t.Clean
  | "Protected" => t.Protected
  | "Purchased" => t.Purchased
  | "TVShow" => t.TVShow
  | "Podcast" => t.Podcast
  | "ITunesU" => t.ITunesU
  | "Unplayed" => t.Unplayed
  | "Movie" => t.Movie
  | "MusicVideo" => t.MusicVideo
  | "HD" => t.HD
  | "HasVideo" => t.HasVideo
  | "Compilation" => t.Compilation
  | _ => false

/-- unescapeChars decodes HTML entity escapes in a character list.
Modelled from the spec: the Go standard-library call `html.UnescapeString`
(not part of this repository) which decodes HTML entity escaping in text
values, e.g. the named entity for a literal ampersand; the common named
entities and the numeric apostrophe escape are covered. -/
def unescapeChars : List Char → List Char
  | [] => []
  | '&' :: 'a' :: 'm' :: 'p' :: ';' :: rest => '&' :: unescapeChars rest
  | '&' :: 'l' :: 't' :: ';' :: rest => '<' :: unescapeChars rest
  | '&' :: 'g' :: 't' :: ';' :: rest => '>' :: unescapeChars rest
  | '&' :: 'q' :: 'u' :: 'o' :: 't' :: ';' :: rest => Char.ofNat 34 :: unescapeChars rest
  | '&' :: 'a' :: 'p' :: 'o' :: 's' :: ';' :: rest => Char.ofNat 39 :: unescapeChars rest
  | '&' :: '#' :: '3' :: '9' :: ';' :: rest => Char.ofNat 39 :: unescapeChars rest
  | c :: rest => c :: unescapeChars rest

/-- unescapeString lifts `unescapeChars` to `String`, modelling the Go call
`html.UnescapeString` used by `Track.GetString`. -/
def unescapeString (s : String) : String :=
  String.mk (unescapeChars s.data)

/-- GetString embeds the Go method `Track.GetString`: look the field up by
name (`none` result models the panic for a missing field), check that its
declared kind is string (`none` models the panic for a kind mismatch), and
otherwise return the field value with HTML entity escaping decoded. -/
def Track.GetString (t : Track) (name : String) : Option String :=
  match trackFieldByName name with
  | none => none
  | some ft =>
    if ft = FieldKind.kString then some (unescapeString (t.stringFieldValue name))
    else none

/-- GetInt embeds the Go method `Track.GetInt`: field lookup by name, kind
check against int, then the raw field value; `none` models the panics. -/
def Track.GetInt (t : Track) (name : String) : Option Int :=
  match trackFieldByName name with
  | none => none
  | some ft =>
    if ft = FieldKind.kInt then some (t.intFieldValue name)
    else none

/-- GetBool embeds the Go method `Track.GetBool`: field lookup by name, kind
check against bool, then the raw field value; `none` models the panics. -/
def Track.GetBool (t : Track) (name : String) : Option Bool :=
  match trackFieldByName name with
  | none => none
  | some ft =>
    if ft = FieldKind.kBool then some (t.boolFieldValue name)
    else none

/-- PlaylistItem is the embedding of the Go struct `PlaylistItem`. -/
structure PlaylistItem where
  TrackID : Int := 0
deriving DecidableEq

/-- Playlist is the embedding of the Go struct `Playlist` from the file that
defines the lookup helpers (fields in source order). -/
structure Playlist where
  Name : String := ""
  Master : Bool := false
  PlaylistID : Int := 0
  PlaylistPersistentID : String := ""
  Visible : Bool := false
  AllItems : Bool := false
  PlaylistItems : List PlaylistItem := []
deriving DecidableEq

/-- Library is the embedding of the Go struct `Library`.  The Go map
`map[string]Track` is embedded as an association list whose keys are unique
in any value built by decoding (the map guarantees this); defaults give the
Go zero value, with the nil map embedded as the empty list. -/
structure Library where
  MajorVersion : Int := 0
  MinorVersion : Int := 0
  Date : PTime := {}
  ApplicationVersion : String := ""
  Features : Int := 0
  ShowContentRatings : Bool := false
  MusicFolder : String := ""
  LibraryPersistentID : String := ""
  Tracks : List (String × Track) := []
  Playlists : List Playlist := []
deriving DecidableEq

/-- tracksLookup embeds the Go map read `l.Tracks[id]` (comma-ok form) on the
association-list embedding of the map: the value stored under the key, or
`none` when the key is absent. -/
def tracksLookup (id : String) : List (String × Track) → Option Track
  | [] => none
  | (k, v) :: rest => if k = id then some v else tracksLookup id rest

/-- Library.AllTracks embeds the Go method `Library.AllTracks`: start from an
empty slice and append every value of the Tracks map in turn. -/
def Library.AllTracks (l : Library) : List Track :=
  l.Tracks.foldl (fun acc p => acc ++ [p.2]) []

/-- Library.Track embeds the Go method `Library.Track`: the comma-ok map
lookup, and on a miss the zero `Track` together with the error
`no track with id: <id>` (errors are embedded as `Option String`, `none`
meaning the nil error). -/
def Library.Track (l : Library) (id : String) : Track × Option String :=
  match tracksLookup id l.Tracks with
  | some t => (t, none)
  | none => ({}, some ("no track with id: " ++ id))

/-- ItlError is the error taxonomy of `ReadFromXML`: an error propagated from
reading the stream, or an error from the plist decode step. -/
inductive ItlError where
  | readError (msg : String)
  | decodeError (msg : String)
deriving DecidableEq

/-- ReaderData models the outcome of `ioutil.ReadAll` on the `io.Reader`
argument of `ReadFromXML`: either the full byte content of the stream, or a
read failure with its error message (the stream could not be fully
consumed). -/
inductive ReaderData where
  | ok (bytes : List (Fin 256))
  | fail (msg : String)
deriving DecidableEq

/-- Unmarshal is the shape of the external collaborator `plist.Unmarshal`.
Modelled from the spec: the generic plist decoder is an external library that
is not part of this repository; per the spec it is consumed as a single call
`decode(bytes, target-shape-descriptor) -> populated value or error`, with no
partial-success mode (it either fully succeeds with a populated value or
fails with a decode error). -/
def Unmarshal : Type := List (Fin 256) → Except String Library

/-- ReadFromXML embeds the Go function `ReadFromXML`, parameterised by the
external plist decoder: the named return `l` starts at the zero `Library`; if
reading the stream fails, that error is returned directly (as the read-step
error) with `l` untouched; otherwise the decoder runs on the bytes and either
populates `l` or yields the decode-step error. -/
def ReadFromXML (unmarshal : Unmarshal) (r : ReaderData) : Library × Option ItlError :=
  match r with
  | .fail m => ({}, some (.readError m))
  | .ok b =>
    match unmarshal b with
    | .error m => ({}, some (.decodeError m))
    | .ok l => (l, none)

/-- trackPlistKey transcribes the per-field plist name-mapping of the Go
struct `Track`: each field maps to its `plist:"..."` tag key when one is
declared, and to its own identifier otherwise; `none` for a name that is not
a field. -/
def trackPlistKey (field : String) : Option String :=
  match field with
  | "TrackID" => some "Track ID"
  | "Name" => some "Name"
  | "Artist" => some "Artist"
  | "Composer" => some "Composer"
  | "Year" => some "Year"
  | "Genre" => some "Genre"
  | "Kind" => some "Kind"
  | "Size" => some "Size"
  | "BPM" => some "BPM"
  | "TrackNumber" => some "Track Number"
  | "TrackCount" => some "Track Count"
  | "DiscNumber" => some "Disc Number"
  | "DiscCount" => some "Disc Count"
  | "PartOfGaplessAlbum" => some "Part Of Gapless Album"
  | "ContentRating" => some "Content Rating"
  | "Rating" => some "Rating"
  | "RatingComputed" => some "Rating Computed"
  | "Disabled" => some "Disabled"
  | "Album" => some "Album"
  | "AlbumArtist" => some "Album Artist"
  | "AlbumRating" => some "Album Rating"
  | "AlbumRatingComputed" => some "Album Rating Computed"
  | "SortName" => some "Sort Name"
  | "SortArtist" => some "Sort Artist"
  | "SortAlbumArtist" => some "Sort Album Artist"
  | "SortAlbum" => some "Sort Album"
  | "SortComposer" => some "Sort Composer"
  | "Clean" => some "Clean"
  | "Series" => some "Series"
  | "TotalTime" => some "Total Time"
  | "DateModified" => some "Date Modified"
  | "DateAdded" => some "Date Added"
  | "BitRate" => some "Bit Rate"
  | "SampleRate" => some "Sample Rate"
  | "VolumeAdjustment" => some "Volume Adjustment"
  | "Comments" => some "Comments"
  | "PlayCount" => some "Play Count"
  | "PlayDate" => some "Play Date"
  | "PlayDateUTC" => some "Play Date UTC"
  | "Protected" => some "Protected"
  | "Purchased" => some "Purchased"
  | "SkipCount" => some "Skip Count"
  | "SkipDate" => some "Skip Date"
  | "ArtworkCount" => some "Artwork Count"
  | "Episode" => some "Episode"
  | "EpisodeOrder" => some "Episode Order"
  | "TVShow" => some "TV Show"
  | "Season" => some "Season"
  | "Podcast" => some "Podcast"
  | "ITunesU" => some "iTunesU"
  | "Unplayed" => some "Unplayed"
  | "PersistentID" => some "Persistent ID"
  | "TrackType" => some "Track Type"
  | "Location" => some "Location"
  | "FileType" => some "File Type"
  | "Movie" => some "Movie"
  | "MusicVideo" => some "Music Video"
  | "HD" => some "HD"
  | "HasVideo" => some "Has Video"
  | "VideoHeight" => some "Video Height"
  | "VideoWidth" => some "Video Width"
  | "Grouping" => some "Grouping"
  | "Compilation" => some "Compilation"
  | "ReleaseDate" => some "Release Date"
  | "FileFolderCount" => some "File Folder Count"
  | "LibraryFolderCount" => some "Library Folder Count"
  | _ => none

/-- libraryPlistKey transcribes the per-field plist name-mapping of the Go
struct `Library` (tag key when declared, identifier otherwise). -/
def libraryPlistKey (field : String) : Option String :=
  match field with
  | "MajorVersion" => some "Major Version"
  | "MinorVersion" => some "Minor Version"
  | "Date" => some "Date"
  | "ApplicationVersion" => some "Application Version"
  | "Features" => some "Features"
  | "ShowContentRatings" => some "Show Content Ratings"
  | "MusicFolder" => some "Music Folder"
  | "LibraryPersistentID" => some "Library Persistent ID"
  | "Tracks" => some "Tracks"
  | "Playlists" => some "Playlists"
  | _ => none

/-- playlistPlistKey transcribes the per-field plist name-mapping of the Go
struct `Playlist` (tag key when declared, identifier otherwise). -/
def playlistPlistKey (field : String) : Option String :=
  match field with
  | "Name" => some "Name"
  | "Master" => some "Master"
  | "PlaylistID" => some "Playlist ID"
  | "PlaylistPersistentID" => some "Playlist Persistent ID"
  | "Visible" => some "Visible"
  | "AllItems" => some "All Items"
  | "PlaylistItems" => some "Playlist Items"
  | _ => none

/-- playlistItemPlistKey transcribes the plist name-mapping of the Go struct
`PlaylistItem`. -/
def playlistItemPlistKey (field : String) : Option String :=
  match field with
  | "TrackID" => some "Track ID"
  | _ => none

/-- Folding slice-append over the Tracks association list collects exactly the
map values, in list order, after the accumulator. -/
theorem foldl_append_snd (xs : List (String × Track)) (acc : List Track) :
    xs.foldl (fun a p => a ++ [p.2]) acc = acc ++ xs.map Prod.snd := by
  induction xs generalizing acc with
  | nil => simp
  | cons x xs ih => simp [List.foldl, ih]

/-- AllTracks is exactly the list of values of the Tracks association list. -/
theorem allTracks_eq_map_snd (l : Library) :
    l.AllTracks = l.Tracks.map Prod.snd := by
  simpa using foldl_append_snd l.Tracks []

/-- C1: when the decode step fails, `ReadFromXML` reports a decode error and
the `Library` it returns alongside the error is the zero value, carrying no
data populated from the document; this holds for every decoder of the
spec-given shape (value or error, no partial population). -/
theorem readFromXML_decodeError_zero_library
    (unmarshal : Unmarshal) (r : ReaderData) (m : String)
    (h : (ReadFromXML unmarshal r).2 = some (ItlError.decodeError m)) :
    (ReadFromXML unmarshal r).1 = ({} : Library) := by
  cases r with
  | fail s => simp [ReadFromXML] at h
  | ok b =>
    cases hb : unmarshal b with
    | error e => simp [ReadFromXML, hb]
    | ok lib => simp [ReadFromXML, hb] at h

/-- C1 witness: a decoder that rejects its input makes `ReadFromXML` fail
with a decode error and return the zero `Library`. -/
theorem readFromXML_decodeError_zero_library_witness :
    (ReadFromXML (fun _ => Except.error "malformed") (ReaderData.ok [])).2
        = some (ItlError.decodeError "malformed") ∧
    (ReadFromXML (fun _ => Except.error "malformed") (ReaderData.ok [])).1
        = ({} : Library) :=
  ⟨rfl, readFromXML_decodeError_zero_library _ _ "malformed" rfl⟩

/-- C7: when the stream cannot be fully consumed, `ReadFromXML` returns the
read error directly together with the zero `Library`; the result then does
not depend on the decoder, so the decode step is not attempted; and every
error it can ever return is either a read-step error or a decode-step
error. -/
theorem readFromXML_readError_taxonomy :
    (∀ (u : Unmarshal) (m : String),
        ReadFromXML u (ReaderData.fail m) = ({}, some (ItlError.readError m))) ∧
    (∀ (u u2 : Unmarshal) (m : String),
        ReadFromXML u (ReaderData.fail m) = ReadFromXML u2 (ReaderData.fail m)) ∧
    (∀ (u : Unmarshal) (r : ReaderData) (e : ItlError),
        (ReadFromXML u r).2 = some e →
        (∃ m, e = ItlError.readError m) ∨ (∃ m, e = ItlError.decodeError m)) := by
  refine ⟨fun u m => rfl, fun u u2 m => rfl, fun u r e h => ?_⟩
  cases e with
  | readError m => exact Or.inl ⟨m, rfl⟩
  | decodeError m => exact Or.inr ⟨m, rfl⟩

/-- C7 witness: a failing stream yields the propagated read error with the
zero `Library`, and that error is one of the two kinds. -/
theorem readFromXML_readError_taxonomy_witness :
    ReadFromXML (fun _ => Except.ok {}) (ReaderData.fail "eof")
        = ({}, some (ItlError.readError "eof")) ∧
    ((∃ m, ItlError.readError "eof" = ItlError.readError m) ∨
      (∃ m, ItlError.readError "eof" = ItlError.decodeError m)) :=
  ⟨readFromXML_readError_taxonomy.1 (fun _ => Except.ok {}) "eof",
    readFromXML_readError_taxonomy.2.2 (fun _ => Except.ok {})
      (ReaderData.fail "eof") (ItlError.readError "eof") rfl⟩

/-- C2 counterexample: nothing ties the Tracks map key to the stored track's
TrackID, so `Track` can succeed on key `"5"` yet return a track whose
TrackID is 7 — refuting, at this concrete input, the claim that `Track k`
returns the track whose TrackID equals k whenever k is present. -/
theorem library_track_id_mismatch_counterexample :
    ((({ Tracks := [("5", { TrackID := 7 })] } : Library).Track "5").2 = none) ∧
    ((({ Tracks := [("5", { TrackID := 7 })] } : Library).Track "5").1.TrackID = 7) ∧
    toString ((({ Tracks := [("5", { TrackID := 7 })] } : Library).Track "5").1.TrackID)
        ≠ "5" :=
  ⟨rfl, rfl, by decide⟩

/-- C2 amended: if k is present in the Tracks mapping then `Track k` succeeds
and returns the track stored under k in the mapping (whose TrackID need not
equal k); if k is absent then `Track k` fails with the NotFound error naming
the missing identifier. -/
theorem library_track_lookup_spec (l : Library) (k : String) :
    (∀ t, tracksLookup k l.Tracks = some t → l.Track k = (t, none)) ∧
    (tracksLookup k l.Tracks = none →
        l.Track k = ({}, some ("no track with id: " ++ k))) := by
  constructor
  · intro t h
    simp [Library.Track, h]
  · intro h
    simp [Library.Track, h]

/-- C2 witness: on a concrete library, a present key returns its stored track
with no error, and an absent key returns the NotFound error. -/
theorem library_track_lookup_spec_witness :
    (({ Tracks := [("5", { TrackID := 7 })] } : Library).Track "5"
        = ({ TrackID := 7 }, none)) ∧
    (({ Tracks := [("5", { TrackID := 7 })] } : Library).Track "9"
        = ({}, some "no track with id: 9")) :=
  ⟨(library_track_lookup_spec { Tracks := [("5", { TrackID := 7 })] } "5").1
      { TrackID := 7 } rfl,
    (library_track_lookup_spec { Tracks := [("5", { TrackID := 7 })] } "9").2 rfl⟩

/-- C9: for an identifier absent from the Tracks mapping, `Track` returns the
zero-value `Track` (every field at its default) alongside the NotFound
error, so a caller ignoring the error observes an empty track. -/
theorem library_track_miss_zero_track (l : Library) (k : String)
    (h : tracksLookup k l.Tracks = none) :
    (l.Track k).1 = ({} : Track) ∧ (l.Track k).2.isSome := by
  simp [Library.Track, h]

/-- C9 witness: looking up any identifier in the zero library yields the zero
track and an error. -/
theorem library_track_miss_zero_track_witness :
    ((({} : Library).Track "1").1 = ({} : Track)) ∧
    ((({} : Library).Track "1").2.isSome) :=
  library_track_miss_zero_track {} "1" rfl

/-- C5: `AllTracks` returns a collection whose size equals the number of
entries in the Tracks mapping and whose elements are exactly the values of
that mapping as a multiset (order unconstrained). -/
theorem allTracks_size_and_elements (l : Library) :
    l.AllTracks.length = l.Tracks.length ∧
    (l.AllTracks : Multiset Track) = ((l.Tracks.map Prod.snd : List Track) : Multiset Track) := by
  constructor
  · rw [allTracks_eq_map_snd]
    exact List.length_map _ _
  · rw [allTracks_eq_map_snd]

/-- C10: for a library whose Tracks mapping is empty — including the zero
value, whose association list embeds Go's nil map — `AllTracks` returns the
empty collection of length zero (the function is total: it neither fails nor
returns a null value). -/
theorem allTracks_empty_of_no_tracks (l : Library) (h : l.Tracks = []) :
    l.AllTracks = [] ∧ l.AllTracks.length = 0 := by
  rw [allTracks_eq_map_snd, h]
  exact ⟨rfl, rfl⟩

/-- C10 witness: the zero library gives the empty track list. -/
theorem allTracks_empty_of_no_tracks_witness :
    (({} : Library).AllTracks = []) ∧ (({} : Library).AllTracks.length = 0) :=
  allTracks_empty_of_no_tracks {} rfl

/-- C4: each typed accessor fails (models the Go panic) exactly when the
named field does not exist on `Track` or exists with a declared kind other
than the accessor's kind; for a name denoting a field of the matching kind,
the accessor succeeds. -/
theorem accessors_fail_iff_missing_or_mismatch (t : Track) (name : String) :
    ((t.GetString name).isSome ↔ trackFieldByName name = some FieldKind.kString) ∧
    ((t.GetInt name).isSome ↔ trackFieldByName name = some FieldKind.kInt) ∧
    ((t.GetBool name).isSome ↔ trackFieldByName name = some FieldKind.kBool) := by
  refine ⟨?_, ?_, ?_⟩ <;>
    · simp only [Track.GetString, Track.GetInt, Track.GetBool]
      cases h : trackFieldByName name with
      | none => simp
      | some k => cases k <;> simp

/-- C3: for every name denoting a string-typed field of `Track`, `GetString`
returns that field's value with HTML entity escaping decoded; in particular
a Name holding the escaped form of an ampersand comes back unescaped. -/
theorem getString_unescapes :
    (∀ (t : Track) (name : String),
        trackFieldByName name = some FieldKind.kString →
        t.GetString name = some (unescapeString (t.stringFieldValue name))) ∧
    ({ Name := "Rock &amp; Roll" } : Track).GetString "Name" = some "Rock & Roll" := by
  constructor
  · intro t name h
    simp [Track.GetString, h]
  · rfl

/-- C3 witness: a concrete string field with an escaped ampersand is returned
in unescaped form. -/
theorem getString_unescapes_witness :
    trackFieldByName "Artist" = some FieldKind.kString ∧
    ({ Artist := "AC&amp;DC" } : Track).GetString "Artist" = some "AC&DC" := by
  refine ⟨rfl, ?_⟩
  rw [getString_unescapes.1 ({ Artist := "AC&amp;DC" } : Track) "Artist" rfl]
  rfl

/-- C8: the decode shape descriptor maps struct fields to document keys via
the per-field table: TrackNumber binds to the key with a space, TrackID,
DateAdded and PlaylistItems bind to their space-separated keys, and untagged
fields such as Name or Features use their own identifier as the key. -/
theorem plist_name_mapping :
    trackPlistKey "TrackNumber" = some "Track Number" ∧
    trackPlistKey "TrackID" = some "Track ID" ∧
    trackPlistKey "DateAdded" = some "Date Added" ∧
    playlistPlistKey "PlaylistItems" = some "Playlist Items" ∧
    trackPlistKey "Name" = some "Name" ∧
    libraryPlistKey "Features" = some "Features" ∧
    libraryPlistKey "MajorVersion" = some "Major Version" ∧
    playlistItemPlistKey "TrackID" = some "Track ID" :=
  ⟨rfl, rfl, rfl, rfl, rfl, rfl, rfl, rfl⟩
